import Mathlib

/-!
Verification of the editing-session orchestration core of the photo
background editor: the session state machine (`editorReducer`), the remote
processing client (`processBackgroundRemoval`), and the composition engine
(`composeImage`, `getDefaultTransform`).  Machine numbers (progress values,
coordinates, scales) are modelled as rationals; opaque platform objects
(HTMLImageElement, File, Blob in the session state) are modelled as numeric
identifiers, since the reducer only stores and compares them.
-/

namespace RemoveBg

/-- Foreground transform, from lib/types.ts: position, uniform scale and
rotation in degrees. -/
structure Transform where
  x : ℚ
  y : ℚ
  scale : ℚ
  rotation : ℚ
deriving Repr, DecidableEq

/-- A partial transform, the payload of UPDATE_TRANSFORM (TypeScript
Partial. of Transform): each field may be absent. -/
structure PartialTransform where
  x : Option ℚ
  y : Option ℚ
  scale : Option ℚ
  rotation : Option ℚ
deriving Repr, DecidableEq

/-- Shallow merge of a partial transform over a transform, as done by the
object spread in the UPDATE_TRANSFORM case of the reducer: a field present
in the payload overwrites, an absent field is kept. -/
def mergeTransform (t : Transform) (p : PartialTransform) : Transform :=
  { x := p.x.getD t.x
    y := p.y.getD t.y
    scale := p.scale.getD t.scale
    rotation := p.rotation.getD t.rotation }

/-- The aggregate editor session state, from lib/types.ts (EditorState).
Platform resources (images, files, blobs, the canvas reference) are opaque
identifiers. -/
structure EditorState where
  sourceImage : Option Nat
  sourceFile : Option Nat
  processedImage : Option Nat
  processedBlob : Option Nat
  backgroundColor : Option String
  backgroundImage : Option Nat
  transform : Transform
  isProcessing : Bool
  processingProgress : ℚ
  error : Option String
  canvasRef : Option Nat
deriving Repr, DecidableEq

/-- The editor actions, from lib/types.ts (EditorAction). -/
inductive EditorAction where
  | setSourceImage (image : Nat) (file : Nat)
  | setProcessedImage (image : Nat) (blob : Nat)
  | setBackgroundColor (color : String)
  | setBackgroundImage (image : Nat)
  | updateTransform (payload : PartialTransform)
  | setProcessing (payload : Bool)
  | setProgress (payload : ℚ)
  | setError (payload : Option String)
  | reset
deriving Repr, DecidableEq

/-- The initial editor state (initialState in app/page.tsx). -/
def initialState : EditorState :=
  { sourceImage := none
    sourceFile := none
    processedImage := none
    processedBlob := none
    backgroundColor := none
    backgroundImage := none
    transform := { x := 0, y := 0, scale := 1, rotation := 0 }
    isProcessing := false
    processingProgress := 0
    error := none
    canvasRef := none }

/-- The session state machine: editorReducer from app/page.tsx.  Blob-URL
revocation in the source is a side effect on the platform, not on the
session value, so it has no counterpart here. -/
def editorReducer (state : EditorState) (action : EditorAction) : EditorState :=
  match action with
  | .setSourceImage image file =>
      { state with sourceImage := some image, sourceFile := some file, error := none }
  | .setProcessedImage image blob =>
      { state with
          processedImage := some image
          processedBlob := some blob
          isProcessing := false
          processingProgress := 0
          error := none }
  | .setBackgroundColor color =>
      { state with backgroundColor := some color, backgroundImage := none }
  | .setBackgroundImage image =>
      { state with backgroundImage := some image, backgroundColor := none }
  | .updateTransform payload =>
      { state with transform := mergeTransform state.transform payload }
  | .setProcessing payload =>
      { state with
          isProcessing := payload
          error := if payload then none else state.error }
  | .setProgress payload =>
      { state with processingProgress := payload }
  | .setError payload =>
      { state with error := payload, isProcessing := false, processingProgress := 0 }
  | .reset =>
      { initialState with sourceImage := state.sourceImage, sourceFile := state.sourceFile }

/-- Run a sequence of actions through the reducer from a starting state. -/
def runActions (state : EditorState) (actions : List EditorAction) : EditorState :=
  actions.foldl editorReducer state

/-- The completion continuation of processRemoveBackground in app/page.tsx:
once the removal blob has resolved and its image element has loaded, it
dispatches SET_PROCESSED_IMAGE with that image and blob, with no generation
or staleness check of any kind. -/
def removalCompletion (image blob : Nat) (state : EditorState) : EditorState :=
  editorReducer state (.setProcessedImage image blob)

/-- A session state that is processing, used to exercise progress ticks. -/
def procState : EditorState := { initialState with isProcessing := true }

/-- A binary result blob returned by the processing endpoint; only its byte
size is observable to the client logic under verification. -/
structure Blob where
  size : Nat
deriving Repr, DecidableEq

/-- The typed error thrown by the processing client once all attempts are
exhausted: BackgroundRemovalError from lib/backgroundRemoval.ts.  The
wrapped original error is modelled by its message. -/
structure BackgroundRemovalError where
  message : String
  originalError : Option String
  retryable : Bool
deriving Repr, DecidableEq

/-- One attempt body of processBackgroundRemoval: the transport (fetch plus
status/JSON handling) either throws with a message or yields a blob; a blob
of size zero is rejected with the empty-result message, exactly as in
lib/backgroundRemoval.ts. -/
def attemptOnce (resp : Except String Blob) : Except String Blob :=
  match resp with
  | .error e => .error e
  | .ok blob =>
      if blob.size = 0 then .error "Background removal produced empty result"
      else .ok blob

/-- Backoff delay in milliseconds before the attempt after `attempt` fails:
min(1000 * 2^(attempt - 1), 5000), from lib/backgroundRemoval.ts. -/
def backoffDelay (attempt : Nat) : Nat :=
  min (1000 * 2 ^ (attempt - 1)) 5000

/-- The exhaustion error thrown after the retry budget is spent, from
lib/backgroundRemoval.ts: message names the attempt count and the last
cause (or a fallback when no cause was recorded), wraps the last cause, and
is marked retryable. -/
def mkExhaustedError (maxRetries : Nat) (lastError : Option String) :
    BackgroundRemovalError :=
  { message := "Failed to remove background after " ++ toString maxRetries
      ++ " attempts: " ++ lastError.getD "Unknown error occurred"
    originalError := lastError
    retryable := true }

/-- Observable outcome of a processBackgroundRemoval run: the typed result,
how many times the transport was invoked, and the inter-attempt delays that
were awaited, in order. -/
structure RemovalOutcome where
  result : Except BackgroundRemovalError Blob
  transportCalls : Nat
  delays : List Nat
deriving Repr

/-- The retry loop of processBackgroundRemoval, recursing on the number of
remaining loop iterations (while attempt < maxRetries).  `transport n`
gives the outcome of the transport call of the n-th attempt (1-based). -/
def removalLoop (transport : Nat → Except String Blob) (maxRetries : Nat) :
    Nat → Nat → Option String → Nat → List Nat → RemovalOutcome
  | 0, _, lastError, calls, delays =>
      { result := .error (mkExhaustedError maxRetries lastError)
        transportCalls := calls
        delays := delays }
  | remaining + 1, attempt, _, calls, delays =>
      let att := attempt + 1
      match attemptOnce (transport att) with
      | .ok blob =>
          { result := .ok blob, transportCalls := calls + 1, delays := delays }
      | .error e =>
          if maxRetries ≤ att then
            { result := .error (mkExhaustedError maxRetries (some e))
              transportCalls := calls + 1
              delays := delays }
          else
            removalLoop transport maxRetries remaining att (some e) (calls + 1)
              (delays ++ [backoffDelay att])

/-- processBackgroundRemoval from lib/backgroundRemoval.ts, as a function of
the transport behavior and the retry budget. -/
def processBackgroundRemoval (transport : Nat → Except String Blob)
    (maxRetries : Nat) : RemovalOutcome :=
  removalLoop transport maxRetries maxRetries 0 none 0 []

/-- An HTML image element as seen by the composition engine: an identity
plus intrinsic dimensions. -/
structure HTMLImage where
  id : Nat
  width : ℚ
  height : ℚ
deriving Repr, DecidableEq

/-- A fabric object as configured by composeImage in lib/imageProcessing.ts:
the wrapped element, position, per-axis scales, angle and interaction
flags. -/
structure FabricObject where
  element : Nat
  left : ℚ
  top : ℚ
  scaleX : ℚ
  scaleY : ℚ
  angle : ℚ
  selectable : Bool
  hasControls : Bool
  evented : Bool
deriving Repr, DecidableEq

/-- The fabric canvas surface: dimensions, background slots and the object
list. -/
structure FabricCanvas where
  width : ℚ
  height : ℚ
  backgroundColor : Option String
  backgroundImage : Option FabricObject
  objects : List FabricObject
deriving Repr, DecidableEq

/-- The background argument of composeImage: a solid color or an image. -/
inductive Background where
  | color (value : String)
  | image (value : HTMLImage)
deriving Repr, DecidableEq

/-- Modelled from the spec: fabric.js (an external collaborator, not part of
src/) clears the surface on canvas.clear() — objects and both background
slots are removed. -/
def clearCanvas (c : FabricCanvas) : FabricCanvas :=
  { c with objects := [], backgroundColor := none, backgroundImage := none }

/-- Modelled from the spec: fabric.js canvas.centerObject(o) (external
collaborator, not part of src/) re-centers the object on the surface,
overwriting its position with the surface center. -/
def centerObject (c : FabricCanvas) (o : FabricObject) : FabricObject :=
  { o with left := c.width / 2, top := c.height / 2 }

/-- composeImage from lib/imageProcessing.ts: clear the canvas, install the
background (solid fill, or an image stretched to exactly fill the surface),
add the foreground configured from the transform, then center it.  fabric
mutates the added object in place, so the object held by the canvas after
canvas.centerObject(fgImage) is the centered one. -/
def composeImage (canvas : FabricCanvas) (foreground : HTMLImage)
    (background : Background) (t : Transform) : FabricCanvas :=
  let c1 := clearCanvas canvas
  let c2 :=
    match background with
    | .color value => { c1 with backgroundColor := some value }
    | .image value =>
        { c1 with
            backgroundImage := some
              { element := value.id
                left := 0
                top := 0
                scaleX := c1.width / value.width
                scaleY := c1.height / value.height
                angle := 0
                selectable := false
                hasControls := false
                evented := false } }
  let fgImage : FabricObject :=
    { element := foreground.id
      left := t.x
      top := t.y
      scaleX := t.scale
      scaleY := t.scale
      angle := t.rotation
      selectable := true
      hasControls := true
      evented := true }
  { c2 with objects := c2.objects ++ [centerObject c2 fgImage] }

/-- getDefaultTransform from lib/imageProcessing.ts: scale to fit the image
in the canvas without upscaling, positioned at the canvas center, no
rotation. -/
def getDefaultTransform (imageWidth imageHeight canvasWidth canvasHeight : ℚ) :
    Transform :=
  let scaleX := canvasWidth / imageWidth
  let scaleY := canvasHeight / imageHeight
  let scale := min (min scaleX scaleY) 1
  { x := canvasWidth / 2
    y := canvasHeight / 2
    scale := scale
    rotation := 0 }

/-! Helper lemmas. -/

/-- Each reducer step preserves background exclusivity. -/
lemma bgExclusive_step (s : EditorState) (a : EditorAction)
    (h : s.backgroundColor = none ∨ s.backgroundImage = none) :
    (editorReducer s a).backgroundColor = none ∨
    (editorReducer s a).backgroundImage = none := by
  cases a <;> simp [editorReducer, initialState] <;> tauto

/-- Background exclusivity is preserved along any action sequence. -/
lemma bgExclusive_run (s : EditorState) (actions : List EditorAction)
    (h : s.backgroundColor = none ∨ s.backgroundImage = none) :
    (runActions s actions).backgroundColor = none ∨
    (runActions s actions).backgroundImage = none := by
  induction actions generalizing s with
  | nil => exact h
  | cons a as ih => exact ih (editorReducer s a) (bgExclusive_step s a h)

/-- Each reducer step preserves the property that an active processing flag
excludes a recorded error. -/
lemma procNoError_step (s : EditorState) (a : EditorAction)
    (h : s.isProcessing = true → s.error = none) :
    (editorReducer s a).isProcessing = true → (editorReducer s a).error = none := by
  cases a with
  | setProcessing payload =>
      cases payload <;> simp [editorReducer] <;> tauto
  | _ => simp [editorReducer, initialState] <;> tauto

/-- The processing-excludes-error property is preserved along any action
sequence. -/
lemma procNoError_run (s : EditorState) (actions : List EditorAction)
    (h : s.isProcessing = true → s.error = none) :
    (runActions s actions).isProcessing = true →
    (runActions s actions).error = none := by
  induction actions generalizing s with
  | nil => exact h
  | cons a as ih => exact ih (editorReducer s a) (procNoError_step s a h)

/-- When every attempt fails, the retry loop ends with the exhaustion error
wrapping the message of the final attempt. -/
lemma removalLoop_allFail (transport : Nat → Except String Blob)
    (maxRetries : Nat) (msgF : Nat → String)
    (hfail : ∀ n, attemptOnce (transport n) = .error (msgF n)) :
    ∀ remaining attempt le calls delays, 1 ≤ remaining →
      attempt + remaining = maxRetries →
      (removalLoop transport maxRetries remaining attempt le calls delays).result =
        .error (mkExhaustedError maxRetries (some (msgF maxRetries))) := by
  intro remaining
  induction remaining with
  | zero => intro attempt le calls delays h1 h2; omega
  | succ r ih =>
      intro attempt le calls delays h1 h2
      by_cases hle : maxRetries ≤ attempt + 1
      · have heq : attempt + 1 = maxRetries := by omega
        simp [removalLoop, hfail, hle, heq]
      · have hr : 1 ≤ r := by omega
        have hstep :
            removalLoop transport maxRetries (r + 1) attempt le calls delays =
              removalLoop transport maxRetries r (attempt + 1)
                (some (msgF (attempt + 1))) (calls + 1)
                (delays ++ [backoffDelay (attempt + 1)]) := by
          simp [removalLoop, hfail (attempt + 1), hle]
        rw [hstep]
        exact ih (attempt + 1) (some (msgF (attempt + 1))) (calls + 1)
          (delays ++ [backoffDelay (attempt + 1)]) hr (by omega)

/-- The session reached by submitting a removal under the first source,
uploading a new source before the removal resolves (RESET then
SET_SOURCE_IMAGE, as handleImageUpload dispatches), and then letting the
stale removal completion arrive. -/
def staleScenario : EditorState :=
  removalCompletion 99 98
    (runActions initialState
      [.setSourceImage 1 2, .setProcessing true, .setProgress 0,
       .reset, .setSourceImage 3 4])

/-- The session reached by recording an error while a progress tick is
still arriving: an in-flight removal keeps reporting progress after a
background-image load failure has recorded an error. -/
def dismissScenario : EditorState :=
  runActions initialState
    [.setProcessing true, .setProgress 40,
     .setError (some "Failed to load background image. Please try another file."),
     .setProgress 55]

/-! Claims. -/

/-- Claim C1, as stated, is false on the code: the SET_PROGRESS case of
editorReducer stores the raw reported value, with no clamping, so feeding
ticks 30, 20 into a processing state observes 20, not max(30, 20) = 30;
the observed sequence for ticks 30, 20, 50 is 30, 20, 50. -/
theorem setProgress_clamping_refuted :
    (runActions procState [.setProgress 30]).processingProgress = 30 ∧
    (runActions procState [.setProgress 30, .setProgress 20]).processingProgress = 20 ∧
    (runActions procState
        [.setProgress 30, .setProgress 20, .setProgress 50]).processingProgress = 50 ∧
    (runActions procState [.setProgress 30, .setProgress 20]).processingProgress ≠
      max 30 20 := by
  have hmax : max (30 : ℚ) 20 = 30 := max_eq_left (by norm_num)
  refine ⟨rfl, rfl, rfl, ?_⟩
  rw [hmax]
  norm_num [runActions, editorReducer, procState, initialState]

/-- Claim C1 (amended): a progress tick overwrites the observed progress
with the raw value the source reports — applying SET_PROGRESS p to any
state yields observed progress p, so feeding the ticks 30, 20, 50 into a
Processing state yields the observed sequence 30, 20, 50. -/
theorem setProgress_passthrough (s : EditorState) (p : ℚ) :
    (editorReducer s (.setProgress p)).processingProgress = p ∧
    (runActions procState [.setProgress 30]).processingProgress = 30 ∧
    (runActions procState [.setProgress 30, .setProgress 20]).processingProgress = 20 ∧
    (runActions procState
        [.setProgress 30, .setProgress 20, .setProgress 50]).processingProgress = 50 :=
  ⟨rfl, rfl, rfl, rfl⟩

/-- Claim C2, as stated, is false on the code: after a removal is submitted
under the first source and a new source upload intervenes, the stale
completion still sets the processed-image slot — the machine has no
generation check and applies the stale result. -/
theorem staleRemoval_applied :
    staleScenario.sourceImage = some 3 ∧
    staleScenario.processedImage = some 99 ∧
    staleScenario.processedBlob = some 98 :=
  ⟨rfl, rfl, rfl⟩

/-- Claim C2 (amended): the removal completion is applied unconditionally —
for every session state, hence regardless of any upload that intervened
since submission, the completion callback sets the processed-image slot
from its result; no stale result is ever discarded. -/
theorem processedImage_always_applied (s : EditorState) (image blob : Nat) :
    (removalCompletion image blob s).processedImage = some image ∧
    (removalCompletion image blob s).processedBlob = some blob ∧
    staleScenario.processedImage = some 99 :=
  ⟨rfl, rfl, rfl⟩

/-- Claim C3: with maxRetries = 2 and both attempts failing, the transport
is invoked exactly twice, the single inter-attempt delay is
min(1000 * 2^(1-1), 5000) = 1000 ms, and every inter-attempt delay lies
between 1000 and 5000 ms. -/
theorem retryBudget_two_attempts (transport : Nat → Except String Blob)
    (e1 e2 : String)
    (h1 : attemptOnce (transport 1) = .error e1)
    (h2 : attemptOnce (transport 2) = .error e2) :
    (processBackgroundRemoval transport 2).transportCalls = 2 ∧
    (processBackgroundRemoval transport 2).delays = [backoffDelay 1] ∧
    backoffDelay 1 = min (1000 * 2 ^ (1 - 1)) 5000 ∧
    ∀ d ∈ (processBackgroundRemoval transport 2).delays, 1000 ≤ d ∧ d ≤ 5000 := by
  have hrun : processBackgroundRemoval transport 2 =
      { result := .error (mkExhaustedError 2 (some e2))
        transportCalls := 2
        delays := [backoffDelay 1] } := by
    simp [processBackgroundRemoval, removalLoop, h1, h2]
  rw [hrun]
  refine ⟨rfl, rfl, rfl, ?_⟩
  intro d hd
  have hd1 : d = backoffDelay 1 := by simpa using hd
  subst hd1
  constructor <;> decide

/-- Claim C3 witness: a transport that always fails, with budget 2. -/
theorem retryBudget_two_attempts_witness :
    (processBackgroundRemoval (fun _ => Except.error "network down") 2).transportCalls = 2 ∧
    (processBackgroundRemoval (fun _ => Except.error "network down") 2).delays =
      [backoffDelay 1] ∧
    backoffDelay 1 = min (1000 * 2 ^ (1 - 1)) 5000 ∧
    ∀ d ∈ (processBackgroundRemoval (fun _ => Except.error "network down") 2).delays,
      1000 ≤ d ∧ d ≤ 5000 :=
  retryBudget_two_attempts (fun _ => Except.error "network down")
    "network down" "network down" rfl rfl

/-- Claim C4, as stated, is false on the code: dismissing the error
(SET_ERROR with payload null) also zeroes processingProgress (and forces
isProcessing to false), so on a reachable state carrying progress 55 the
dismissal is not frame-preserving outside the error field. -/
theorem dismissError_not_frame_preserving :
    dismissScenario.error =
      some "Failed to load background image. Please try another file." ∧
    dismissScenario.processingProgress = 55 ∧
    (editorReducer dismissScenario (.setError none)).processingProgress = 0 ∧
    editorReducer dismissScenario (.setError none) ≠
      { dismissScenario with error := none } := by
  refine ⟨rfl, rfl, rfl, ?_⟩
  intro hcontra
  have h55 := congrArg EditorState.processingProgress hcontra
  norm_num [dismissScenario, runActions, editorReducer, initialState] at h55

/-- Claim C4 (amended): dismissing the error clears the error field, forces
isProcessing to false and processingProgress to 0, and leaves every other
field unchanged; in particular, in any state where isProcessing is already
false and the progress is already 0 — as in every state immediately after
an error is recorded — dismissal changes only the error field. -/
theorem dismissError_effect (s : EditorState) :
    ((editorReducer s (.setError none)).error = none ∧
      (editorReducer s (.setError none)).isProcessing = false ∧
      (editorReducer s (.setError none)).processingProgress = 0 ∧
      (editorReducer s (.setError none)).sourceImage = s.sourceImage ∧
      (editorReducer s (.setError none)).sourceFile = s.sourceFile ∧
      (editorReducer s (.setError none)).processedImage = s.processedImage ∧
      (editorReducer s (.setError none)).processedBlob = s.processedBlob ∧
      (editorReducer s (.setError none)).backgroundColor = s.backgroundColor ∧
      (editorReducer s (.setError none)).backgroundImage = s.backgroundImage ∧
      (editorReducer s (.setError none)).transform = s.transform ∧
      (editorReducer s (.setError none)).canvasRef = s.canvasRef) ∧
    (s.isProcessing = false → s.processingProgress = 0 →
      editorReducer s (.setError none) = { s with error := none }) := by
  refine ⟨⟨rfl, rfl, rfl, rfl, rfl, rfl, rfl, rfl, rfl, rfl, rfl⟩, ?_⟩
  intro h1 h2
  cases s
  simp_all [editorReducer]

/-- Claim C4 witness: on a state that only carries an error, dismissal is
exactly the frame-preserving update of the error field. -/
theorem dismissError_effect_witness :
    editorReducer { initialState with error := some "x" } (.setError none) =
      { { initialState with error := some "x" } with error := none } :=
  (dismissError_effect { initialState with error := some "x" }).2 rfl rfl

/-- Claim C5: Reset is idempotent — applying RESET twice equals applying it
once, and the once-reset state keeps exactly the source image and source
file while every other field holds its initialState default. -/
theorem reset_idempotent (s : EditorState) :
    editorReducer (editorReducer s .reset) .reset = editorReducer s .reset ∧
    editorReducer s .reset =
      { initialState with sourceImage := s.sourceImage, sourceFile := s.sourceFile } ∧
    (editorReducer s .reset).sourceImage = s.sourceImage ∧
    (editorReducer s .reset).sourceFile = s.sourceFile ∧
    (editorReducer s .reset).processedImage = none ∧
    (editorReducer s .reset).processedBlob = none ∧
    (editorReducer s .reset).backgroundColor = none ∧
    (editorReducer s .reset).backgroundImage = none ∧
    (editorReducer s .reset).transform = { x := 0, y := 0, scale := 1, rotation := 0 } ∧
    (editorReducer s .reset).isProcessing = false ∧
    (editorReducer s .reset).processingProgress = 0 ∧
    (editorReducer s .reset).error = none ∧
    (editorReducer s .reset).canvasRef = none :=
  ⟨rfl, rfl, rfl, rfl, rfl, rfl, rfl, rfl, rfl, rfl, rfl, rfl, rfl⟩

/-- Claim C6: in every session state reachable from the initial state by
any sequence of reducer actions, at most one of backgroundColor and
backgroundImage is non-null — setting one clears the other. -/
theorem background_exclusive (actions : List EditorAction) :
    (runActions initialState actions).backgroundColor = none ∨
    (runActions initialState actions).backgroundImage = none :=
  bgExclusive_run initialState actions (Or.inl rfl)

/-- Claim C7: for positive image and canvas dimensions, the default
transform scales by min(canvasW/imgW, canvasH/imgH, 1) — never upscaling —
and sits at the canvas center with rotation 0; concretely,
getDefaultTransform 4000 2000 800 600 gives scale 1/5 at (400, 300). -/
theorem default_transform_spec (iw ih cw ch : ℚ)
    (hiw : 0 < iw) (hih : 0 < ih) (hcw : 0 < cw) (hch : 0 < ch) :
    getDefaultTransform iw ih cw ch =
      { x := cw / 2, y := ch / 2,
        scale := min (min (cw / iw) (ch / ih)) 1, rotation := 0 } ∧
    (getDefaultTransform iw ih cw ch).scale ≤ 1 ∧
    getDefaultTransform 4000 2000 800 600 =
      { x := 400, y := 300, scale := 1 / 5, rotation := 0 } := by
  refine ⟨rfl, min_le_right _ _, ?_⟩
  simp only [getDefaultTransform, Transform.mk.injEq]
  norm_num [min_def]

/-- Claim C7 witness: the concrete instance with all hypotheses
discharged. -/
theorem default_transform_spec_witness :
    getDefaultTransform 4000 2000 800 600 =
      { x := 400, y := 300, scale := 1 / 5, rotation := 0 } :=
  (default_transform_spec 4000 2000 800 600 (by norm_num) (by norm_num)
    (by norm_num) (by norm_num)).2.2

/-- Claim C8: whenever every attempt fails, the processing client ends with
a typed BackgroundRemovalError that is retryable and wraps the message of
the last attempt; it never yields a result blob. -/
theorem exhaustion_typed_failure (transport : Nat → Except String Blob)
    (maxRetries : Nat) (msgF : Nat → String)
    (hfail : ∀ n, attemptOnce (transport n) = .error (msgF n))
    (hpos : 1 ≤ maxRetries) :
    ∃ e : BackgroundRemovalError,
      (processBackgroundRemoval transport maxRetries).result = .error e ∧
      e.retryable = true ∧
      e.originalError = some (msgF maxRetries) ∧
      e.message = "Failed to remove background after " ++ toString maxRetries
        ++ " attempts: " ++ msgF maxRetries ∧
      ∀ b : Blob, (processBackgroundRemoval transport maxRetries).result ≠ .ok b := by
  have h : (processBackgroundRemoval transport maxRetries).result =
      .error (mkExhaustedError maxRetries (some (msgF maxRetries))) :=
    removalLoop_allFail transport maxRetries msgF hfail maxRetries 0 none 0 []
      hpos (by omega)
  refine ⟨mkExhaustedError maxRetries (some (msgF maxRetries)), h, rfl, rfl, rfl, ?_⟩
  intro b hb
  rw [hb] at h
  exact Except.noConfusion h

/-- Claim C8 witness: a transport that always fails with "boom", budget 2. -/
theorem exhaustion_typed_failure_witness :
    ∃ e : BackgroundRemovalError,
      (processBackgroundRemoval (fun _ => Except.error "boom") 2).result = .error e ∧
      e.retryable = true ∧
      e.originalError = some "boom" ∧
      e.message = "Failed to remove background after " ++ toString 2
        ++ " attempts: " ++ "boom" ∧
      ∀ b : Blob,
        (processBackgroundRemoval (fun _ => Except.error "boom") 2).result ≠ .ok b :=
  exhaustion_typed_failure (fun _ => Except.error "boom") 2 (fun _ => "boom")
    (fun _ => rfl) (by omega)

/-- Claim C9: composeImage leaves exactly one foreground object on the
surface, centered at (width/2, height/2) regardless of the transform's x
and y, with scale and rotation applied as given; consequently two
transforms differing only in x and y compose to identical canvases. -/
theorem compose_recenters_foreground (canvas : FabricCanvas)
    (foreground : HTMLImage) (background : Background) (t : Transform) :
    (∃ fg : FabricObject,
      (composeImage canvas foreground background t).objects = [fg] ∧
      fg.left = canvas.width / 2 ∧
      fg.top = canvas.height / 2 ∧
      fg.scaleX = t.scale ∧
      fg.scaleY = t.scale ∧
      fg.angle = t.rotation ∧
      fg.element = foreground.id) ∧
    ∀ x1 y1 x2 y2 : ℚ,
      composeImage canvas foreground background
        { x := x1, y := y1, scale := t.scale, rotation := t.rotation } =
      composeImage canvas foreground background
        { x := x2, y := y2, scale := t.scale, rotation := t.rotation } := by
  constructor
  · refine ⟨⟨foreground.id, canvas.width / 2, canvas.height / 2, t.scale, t.scale,
      t.rotation, true, true, true⟩, ?_, rfl, rfl, rfl, rfl, rfl, rfl⟩
    cases background <;> rfl
  · intro x1 y1 x2 y2
    cases background <;> rfl

/-- Claim C10: in every session state reachable from the initial state by
any sequence of reducer actions, an active processing flag excludes a
recorded error; moreover SET_PROCESSING true always clears the error and
SET_ERROR always clears the processing flag. -/
theorem processing_excludes_error (actions : List EditorAction)
    (h : (runActions initialState actions).isProcessing = true) :
    (runActions initialState actions).error = none ∧
    (∀ s : EditorState, (editorReducer s (.setProcessing true)).error = none) ∧
    (∀ (s : EditorState) (m : Option String),
      (editorReducer s (.setError m)).isProcessing = false) :=
  ⟨procNoError_run initialState actions (fun hfalse => by cases hfalse) h,
    fun _ => rfl, fun _ _ => rfl⟩

/-- Claim C10 witness: the state reached by a single SET_PROCESSING true is
processing and carries no error. -/
theorem processing_excludes_error_witness :
    (runActions initialState [EditorAction.setProcessing true]).isProcessing = true ∧
    (runActions initialState [EditorAction.setProcessing true]).error = none :=
  ⟨rfl, (processing_excludes_error [EditorAction.setProcessing true] rfl).1⟩

end RemoveBg
